import Mathlib

/-!
Verification of the hazard aggregation, risk-scoring and trend-analysis engine.

The TypeScript sources are shallowly embedded: JavaScript numbers appearing in
transcendental computations (haversine, Poisson risk) are modelled as real
numbers, while purely rational computations (river trend, climate stability)
are modelled over `ℚ` so that concrete runs are decidable.  JavaScript `Date`
values are modelled by their UTC epoch-millisecond value together with the
proleptic Gregorian civil-date conversion that `Date#toISOString` /
`Date#getFullYear` / `Date#setFullYear` perform (server runs in UTC).
-/

open Classical

/-! ### Geo utilities (src `lib/geo.ts`) -/

/-- Coordinate record `{lat, lng}` from `lib/geo.ts`. -/
structure LatLng where
  lat : ℝ
  lng : ℝ

/-- Embeds `toRadians(degrees) = degrees * Math.PI / 180`. -/
noncomputable def toRadians (degrees : ℝ) : ℝ :=
  degrees * Real.pi / 180

/-- Model of JavaScript `Math.atan2(y, x)` on real arguments. -/
noncomputable def atan2 (y x : ℝ) : ℝ :=
  if 0 < x then Real.arctan (y / x)
  else if x = 0 then
    (if 0 < y then Real.pi / 2 else if y < 0 then -(Real.pi / 2) else 0)
  else if 0 ≤ y then Real.arctan (y / x) + Real.pi
  else Real.arctan (y / x) - Real.pi

/-- Embeds `haversineDistanceKm` from `lib/geo.ts` (Earth radius 6371 km). -/
noncomputable def haversineDistanceKm (a b : LatLng) : ℝ :=
  let R : ℝ := 6371
  let dLat := toRadians (b.lat - a.lat)
  let dLng := toRadians (b.lng - a.lng)
  let lat1 := toRadians a.lat
  let lat2 := toRadians b.lat
  let sinDLat := Real.sin (dLat / 2)
  let sinDLng := Real.sin (dLng / 2)
  let h := sinDLat * sinDLat + Real.cos lat1 * Real.cos lat2 * sinDLng * sinDLng
  let c := 2 * atan2 (Real.sqrt h) (Real.sqrt (1 - h))
  R * c

/-- Embeds `clamp(value, min, max) = Math.max(min, Math.min(max, value))`. -/
noncomputable def clamp (value mn mx : ℝ) : ℝ :=
  max mn (min mx value)

/-! ### Calendar model for the date-window helpers (src `lib/geo.ts`)

JavaScript `Date` stores UTC milliseconds since 1970-01-01T00:00Z and converts
to a civil (proleptic Gregorian) date for `toISOString().slice(0, 10)`.  The
two conversions below are the standard era-based civil-date algorithms; they
model exactly that conversion.  `Int` division `/` is Euclidean division,
which on the positive divisors used here coincides with the floor division
JavaScript performs. -/

/-- Civil date `(year, month, day)` of a day count since the epoch
1970-01-01, as rendered by `Date#toISOString` in UTC. -/
def civilFromDays (z0 : Int) : Int × Int × Int :=
  let z := z0 + 719468
  let era : Int := z / 146097
  let doe : Nat := (z - era * 146097).toNat
  let yoe : Nat := (doe - doe / 1460 + doe / 36524 - doe / 146096) / 365
  let y : Int := (yoe : Int) + era * 400
  let doy : Nat := doe - (365 * yoe + yoe / 4 - yoe / 100)
  let mp : Nat := (5 * doy + 2) / 153
  let d : Int := (doy - (153 * mp + 2) / 5 : Nat) + 1
  let m : Int := if mp < 10 then (mp : Int) + 3 else (mp : Int) - 9
  (if mp < 10 then y else y + 1, m, d)

/-- Day count since the epoch of a civil date `(y, m, d)`; the inverse of
`civilFromDays` on valid dates, and the `MakeDay` arithmetic JavaScript uses
for `Date#setFullYear` (a day number beyond the month length rolls over). -/
def daysFromCivil (y m d : Int) : Int :=
  let y' := y - (if m ≤ 2 then 1 else 0)
  let era : Int := y' / 400
  let yoe : Nat := (y' - era * 400).toNat
  let mp : Nat := (if m ≤ 2 then m + 9 else m - 3).toNat
  let doy : Int := ((153 * mp + 2) / 5 : Nat) + (d - 1)
  let doe : Int := (365 * yoe + yoe / 4 - yoe / 100 : Nat) + doy
  era * 146097 + doe - 719468

/-- Epoch day of a UTC millisecond timestamp (floor division, as in the UTC
calendar rendering of `Date`). -/
def epochDayOfMs (ms : Int) : Int :=
  ms / 86400000

/-- Embeds `isoDateNDaysAgo(days)` from `lib/geo.ts`:
`new Date(Date.now() - days * 24 * 60 * 60 * 1000).toISOString().slice(0, 10)`,
as a function of the current time `nowMs`; the returned ISO date string is
represented by its civil `(year, month, day)` triple. -/
def isoDateNDaysAgo (nowMs : Int) (days : Int) : Int × Int × Int :=
  civilFromDays (epochDayOfMs (nowMs - days * 86400000))

/-- Embeds `isoDateNYearsAgo(years)` from `lib/geo.ts`:
`d = new Date(); d.setFullYear(d.getFullYear() - years)`, then
`toISOString().slice(0, 10)`, as a function of the current time `nowMs`.
`setFullYear` keeps the month and day-of-month and renormalises via the
`MakeDay` day-number arithmetic, which is `daysFromCivil (y - years) m 1`
plus `d - 1` days. -/
def isoDateNYearsAgo (nowMs : Int) (years : Int) : Int × Int × Int :=
  match civilFromDays (epochDayOfMs nowMs) with
  | (y, m, d) => civilFromDays (daysFromCivil (y - years) m 1 + (d - 1))

/-- Modelled from the spec: "calendar arithmetic … subtract from the current
calendar day": the date whose day number is the current day number minus
`days`. -/
def calendarDaysAgoSpec (nowMs : Int) (days : Int) : Int × Int × Int :=
  civilFromDays (epochDayOfMs nowMs - days)

/-- The elapsed-seconds alternative the spec rules out for the year helper:
subtracting a fixed 365-day multiple of milliseconds. -/
def yearsAgoVia365Days (nowMs : Int) (years : Int) : Int × Int × Int :=
  civilFromDays (epochDayOfMs (nowMs - years * 365 * 86400000))

/-! ### Risk scorer (src `lib/risk.ts`) -/

/-- Risk breakdown record from `lib/risk.ts`. -/
structure RiskBreakdown where
  earthquake : ℝ
  wildfire : ℝ
  severeStorm : ℝ
  volcano : ℝ
  flood : ℝ
  landslide : ℝ
  drought : ℝ
  overall : ℝ

/-- Embeds `poissonProbability(expectedEventsPerPeriod)`:
probability of at least one event, `1 - e^(-λ)` with `λ = max(0, input)`. -/
noncomputable def poissonProbability (expectedEventsPerPeriod : ℝ) : ℝ :=
  let lambda := max 0 expectedEventsPerPeriod
  1 - Real.exp (-lambda)

/-- Hazard counts of a `HazardsSummary` (`counts` field in `lib/hazards.ts`);
the category record `eonetByCategory` with its `?? 0` default read is
modelled as a total map from category titles to tallies. -/
structure HazardsCounts where
  earthquakes : Nat
  eonetByCategory : String → Nat

/-- Earthquake entry of a `HazardsSummary` (`lib/hazards.ts`). -/
structure QuakeSummaryItem where
  id : String
  mag : Option ℝ
  place : String
  time : Int
  url : String
  coordinates : LatLng

/-- Natural-event entry of a `HazardsSummary` (`lib/hazards.ts`). -/
structure EonetSummaryItem where
  id : String
  title : String
  categories : List String
  time : String
  coordinates : LatLng
  link : Option String

/-- The `HazardsSummary` record from `lib/hazards.ts`. -/
structure HazardsSummary where
  center : LatLng
  radiusKm : ℝ
  lookbackYears : ℝ
  counts : HazardsCounts
  earthquakes : List QuakeSummaryItem
  eonetEvents : List EonetSummaryItem

/-- Embeds `computeRisk(summary)` from `lib/risk.ts`: per-category yearly
rates fed through `poissonProbability`, fused by the fixed weights
(earthquake 0.30, wildfire 0.15, severeStorm 0.20, volcano 0.05, flood 0.20,
landslide 0.05, drought 0.05). -/
noncomputable def computeRisk (summary : HazardsSummary) : RiskBreakdown :=
  let years := max 1 summary.lookbackYears
  let eqPerYear := (summary.counts.earthquakes : ℝ) / years
  let eqProb := poissonProbability eqPerYear
  let cat := summary.counts.eonetByCategory
  let wildfirePerYear := (cat "Wildfires" : ℝ) / years
  let severeStormPerYear := ((cat "Severe Storms" : ℝ) + (cat "Tropical Cyclones" : ℝ)) / years
  let volcanoPerYear := (cat "Volcanoes" : ℝ) / years
  let floodPerYear := (cat "Floods" : ℝ) / years
  let landslidePerYear := (cat "Landslides" : ℝ) / years
  let droughtPerYear := (cat "Drought" : ℝ) / years
  let wildfireProb := poissonProbability wildfirePerYear
  let stormProb := poissonProbability severeStormPerYear
  let volcanoProb := poissonProbability volcanoPerYear
  let floodProb := poissonProbability floodPerYear
  let landslideProb := poissonProbability landslidePerYear
  let droughtProb := poissonProbability droughtPerYear
  let overall :=
    eqProb * 0.30 +
    wildfireProb * 0.15 +
    stormProb * 0.20 +
    volcanoProb * 0.05 +
    floodProb * 0.20 +
    landslideProb * 0.05 +
    droughtProb * 0.05
  { earthquake := eqProb
    wildfire := wildfireProb
    severeStorm := stormProb
    volcano := volcanoProb
    flood := floodProb
    landslide := landslideProb
    drought := droughtProb
    overall := overall }

/-- The advice level union type `"low" | "moderate" | "high"`. -/
inductive RiskLevel where
  | low
  | moderate
  | high
deriving DecidableEq

/-- Advice record returned by `summarizeAdvice`. -/
structure Advice where
  business : String
  home : String
  level : RiskLevel

/-- Embeds `summarizeAdvice(risk)` from `lib/risk.ts`. -/
noncomputable def summarizeAdvice (risk : RiskBreakdown) : Advice :=
  let level : RiskLevel :=
    if risk.overall < 0.2 then .low
    else if risk.overall < 0.5 then .moderate
    else .high
  let business :=
    if level = .low then
      "Favorable: proceed with normal due diligence. Maintain basic insurance."
    else if level = .moderate then
      "Caution: proceed with mitigation (insurance, resilient siting, backup power)."
    else
      "High risk: consider alternative locations or invest in robust mitigation."
  let home :=
    if level = .low then
      "Suitable for residence. Keep emergency kit and plans."
    else if level = .moderate then
      "Assess building codes, elevation, and retrofit options."
    else
      "High exposure. Prefer elevated/retrofitted structures and robust insurance."
  { business := business, home := home, level := level }

/-! ### Natural-event adapter (src `lib/hazards.ts`) -/

/-- Category entry `{id, title}` of an EONET event. -/
structure EonetCategory where
  id : Int
  title : String

/-- Geometry entry of an EONET event; `coordinates` is a GeoJSON position
list `[lng, lat, ...]`. -/
structure EonetGeometry where
  date : String
  magnitudeValue : Option ℝ
  magnitudeUnit : Option String
  type : String
  coordinates : List ℝ

/-- Raw EONET event record from `lib/hazards.ts`. -/
structure EonetEvent where
  id : String
  title : String
  categories : List EonetCategory
  geometry : List EonetGeometry
  link : Option String

/-- Embeds the day-window computation of `fetchEonetEvents`:
`days = Math.max(30, Math.min(365 * lookbackYears, 3650))`. -/
noncomputable def eonetDays (lookbackYears : ℝ) : ℝ :=
  max 30 (min (365 * lookbackYears) 3650)

/-- Embeds the per-geometry test inside `fetchEonetEvents`: a geometry
counts only if its position list has at least two entries, destructured as
`[lng, lat]`, and its haversine distance to the center is at most
`radiusKm`. -/
noncomputable def eonetGeometryWithinRadius (center : LatLng) (radiusKm : ℝ)
    (g : EonetGeometry) : Bool :=
  if g.coordinates.length < 2 then false
  else decide (haversineDistanceKm center ⟨g.coordinates.getD 1 0, g.coordinates.getD 0 0⟩ ≤ radiusKm)

/-- Embeds the client-side post-filter of `fetchEonetEvents`:
`events.filter((ev) => ev.geometry?.some((g) => ...))`. -/
noncomputable def eonetRadiusFilter (center : LatLng) (radiusKm : ℝ)
    (events : List EonetEvent) : List EonetEvent :=
  events.filter (fun ev => ev.geometry.any (eonetGeometryWithinRadius center radiusKm))

/-! ### River trend analyzer (src `web/src/lib/river.ts`) -/

/-- Coordinates of a gage site; the trend analyzer only carries them
through, so they are modelled over `ℚ`. -/
structure GageCoords where
  lat : ℚ
  lng : ℚ

/-- Gage site record from `river.ts`. -/
structure GageSite where
  siteCode : String
  siteName : String
  coordinates : GageCoords

/-- Gage reading; the ISO `timestamp` string is modelled by the
epoch-millisecond value that `new Date(timestamp).getTime()` yields. -/
structure GageReading where
  timestamp : ℚ
  value : ℚ
deriving Inhabited

/-- River trend record from `river.ts`. -/
structure RiverTrend where
  site : GageSite
  readings : List GageReading
  rising : Bool
  riseRatePerHour : ℚ
  message : String

/-- Model of JavaScript `Number#toFixed(2)` used by the trend messages:
round to an integer number of hundredths (ties away from the smaller
value), then print with two decimals. -/
def formatFixed2 (q : ℚ) : String :=
  let n : Int := round (q * 100)
  let sign := if n < 0 then "-" else ""
  let a := n.natAbs
  sign ++ toString (a / 100) ++ "." ++ (if a % 100 < 10 then "0" else "") ++ toString (a % 100)

/-- Embeds `analyzeRiverTrend(site, readings)` from `river.ts`. -/
def analyzeRiverTrend (site : GageSite) (readings : List GageReading) : RiverTrend :=
  if readings.length < 2 then
    { site := site, readings := readings, rising := false, riseRatePerHour := 0,
      message := "Insufficient data" }
  else
    let recent := readings.drop (readings.length - 12)
    let firstMs := recent.headI.timestamp
    let lastMs := recent.getLastI.timestamp
    let hours := max (1/10) ((lastMs - firstMs) / 3600000)
    let delta := recent.getLastI.value - recent.headI.value
    let rate := delta / hours
    let rising : Bool := decide (rate > 1/100)
    let message :=
      if rising then "River level rising at ~" ++ formatFixed2 rate ++ " per hour"
      else "River level stable/falling (~" ++ formatFixed2 rate ++ " per hour)"
    { site := site, readings := recent, rising := rising, riseRatePerHour := rate,
      message := message }

/-! ### Climate stability scorer (src `frontend/src/pages/Dashboard.tsx` and
`frontend/src/components/StabilityCard.tsx`) -/

/-- Yearly climate record consumed by `computeStabilityScore`. -/
structure YearlyClimate where
  year : Int
  average_temperature_c : Option ℚ
  average_precip_mm : Option ℚ

/-- Embeds the inner `slope` closure of `computeStabilityScore`:
ordinary-least-squares slope of the non-null points of `ys` against the
index values `xs`, with fewer than two usable points (or a degenerate
`sxx`) giving 0. -/
def olsSlope (xs : List ℚ) (ys : List (Option ℚ)) : ℚ :=
  let pts := (xs.zip ys).filterMap (fun p => p.2.map (fun y => (p.1, y)))
  if pts.length < 2 then 0
  else
    let n : ℚ := pts.length
    let meanX := (pts.map (fun p => p.1)).sum / n
    let meanY := (pts.map (fun p => p.2)).sum / n
    let sxx := (pts.map (fun p => (p.1 - meanX) * (p.1 - meanX))).sum
    let sxy := (pts.map (fun p => (p.1 - meanX) * (p.2 - meanY))).sum
    if sxx = 0 then 0 else sxy / sxx

/-- Embeds the inner `piece` closure: piecewise-linear penalty of `|x|`
between `lo` and `hi`. -/
def piece (x lo hi : ℚ) : ℚ :=
  let ax := |x|
  if ax ≤ lo then 0
  else if ax ≥ hi then 1
  else (ax - lo) / (hi - lo)

/-- Embeds `computeStabilityScore(data)` from `Dashboard.tsx`; the argument
is the `data.years` array. -/
def computeStabilityScore (allYears : List YearlyClimate) : Int :=
  let years := allYears.drop (allYears.length - 20)
  if years.length = 0 then 0
  else
    let xs : List ℚ := (List.range years.length).map (fun i => (i : ℚ))
    let tSlope := olsSlope xs (years.map (fun y => y.average_temperature_c))
    let pSeries := years.map (fun y => y.average_precip_mm)
    let pSlope := olsSlope xs pSeries
    let pVals := pSeries.filterMap id
    let pMean : ℚ := if pVals.length = 0 then 0 else pVals.sum / (pVals.length : ℚ)
    let relPSlope := if 0 < pMean then pSlope / pMean else 0
    let tempPenalty := piece tSlope 0.02 0.05
    let dryingPen := piece (min 0 relPSlope) 0.01 0.03
    let wettingPen := 0.5 * piece (max 0 relPSlope) 0.01 0.03
    let precipPenalty := max dryingPen wettingPen
    let overall := 0.6 * tempPenalty + 0.4 * precipPenalty
    max 0 (min 100 (round ((100 : ℚ) * (1 - overall))))

/-- Embeds `interpretation(score)` from `StabilityCard.tsx`; the `null`
score is modelled by `none` (an `Int` score is never `NaN`). -/
def interpretation (score : Option Int) : String :=
  match score with
  | none => "Insufficient data"
  | some s =>
    if s ≥ 80 then "Stable climate conditions"
    else if s ≥ 40 then "Noticeable warming/drying trend"
    else "Highly unstable conditions"

/-! ### Concrete sample data used by the witness statements -/

/-- A gage site used to exercise the river trend analyzer. -/
def sampleGage : GageSite :=
  { siteCode := "01646500", siteName := "POTOMAC RIVER NEAR WASH, DC LITTLE FALLS PUMP STA",
    coordinates := { lat := 38.94977778, lng := -77.12763889 } }

/-- A hazard summary with fifteen earthquakes over five years and no
natural events. -/
noncomputable def sampleSummaryA : HazardsSummary :=
  { center := { lat := 40, lng := -100 }, radiusKm := 100, lookbackYears := 5,
    counts := { earthquakes := 15, eonetByCategory := fun _ => 0 },
    earthquakes := [], eonetEvents := [] }

/-- A hazard summary with the same counts and lookback as `sampleSummaryA`
but a different center, radius and record lists. -/
noncomputable def sampleSummaryB : HazardsSummary :=
  { center := { lat := 35, lng := -90 }, radiusKm := 250, lookbackYears := 5,
    counts := { earthquakes := 15, eonetByCategory := fun _ => 0 },
    earthquakes :=
      [{ id := "us7000abcd", mag := some 4.2, place := "12 km N of Somewhere",
         time := 1700000000000, url := "https://example.org/us7000abcd",
         coordinates := { lat := 35.1, lng := -90.2 } }],
    eonetEvents :=
      [{ id := "EONET_0001", title := "Sample Fire", categories := ["Wildfires"],
         time := "2024-01-01", coordinates := { lat := 35.2, lng := -90.1 },
         link := none }] }

/-- A risk breakdown with overall score 0.3. -/
noncomputable def sampleRiskA : RiskBreakdown :=
  { earthquake := 0.9, wildfire := 0, severeStorm := 0, volcano := 0, flood := 0,
    landslide := 0, drought := 0, overall := 0.3 }

/-- A different risk breakdown with the same overall score 0.3. -/
noncomputable def sampleRiskB : RiskBreakdown :=
  { earthquake := 0.1, wildfire := 0.5, severeStorm := 0.2, volcano := 0.3, flood := 0.4,
    landslide := 0.2, drought := 0.1, overall := 0.3 }

/-- Twenty years of perfectly flat climate data (15 degC, 800 mm). -/
def flatClimateSeries : List YearlyClimate :=
  (List.range 20).map (fun i =>
    { year := 2000 + (i : Int), average_temperature_c := some 15,
      average_precip_mm := some 800 })

/-- Twenty years with temperature rising linearly by 0.06 degC/year and
flat precipitation. -/
def risingClimateSeries : List YearlyClimate :=
  (List.range 20).map (fun i =>
    { year := 2000 + (i : Int), average_temperature_c := some (10 + 0.06 * (i : ℚ)),
      average_precip_mm := some 800 })

/-- UTC noon of 2024-03-01 (the day after a leap day) in epoch milliseconds. -/
def marchFirst2024Noon : Int := daysFromCivil 2024 3 1 * 86400000 + 43200000

/-- UTC noon of 2024-02-29 (a leap day) in epoch milliseconds. -/
def feb29of2024Noon : Int := daysFromCivil 2024 2 29 * 86400000 + 43200000

/-! ### Helper lemmas -/

theorem poissonProbability_nonneg (x : ℝ) : 0 ≤ poissonProbability x := by
  have h : Real.exp (-(max 0 x)) ≤ 1 := by
    rw [Real.exp_le_one_iff]
    exact neg_nonpos.mpr (le_max_left 0 x)
  simp only [poissonProbability]
  linarith

theorem poissonProbability_lt_one (x : ℝ) : poissonProbability x < 1 := by
  simp only [poissonProbability]
  have := Real.exp_pos (-(max 0 x))
  linarith

theorem poissonProbability_eq_zero_iff (x : ℝ) : poissonProbability x = 0 ↔ x ≤ 0 := by
  simp only [poissonProbability]
  constructor
  · intro h
    have h1 : Real.exp (-(max 0 x)) = 1 := by linarith
    rw [Real.exp_eq_one_iff, neg_eq_zero] at h1
    exact h1 ▸ le_max_right 0 x
  · intro h
    rw [max_eq_left h, neg_zero, Real.exp_zero]
    ring

theorem poissonProbability_rate_eq_zero_iff (n y : ℝ) (hn : 0 ≤ n) (hy : 0 < y) :
    poissonProbability (n / y) = 0 ↔ n = 0 := by
  rw [poissonProbability_eq_zero_iff]
  constructor
  · intro h
    have h3 : n / y = 0 := le_antisymm h (div_nonneg hn hy.le)
    rcases div_eq_zero_iff.mp h3 with h4 | h4
    · exact h4
    · exact absurd h4 (ne_of_gt hy)
  · intro h
    rw [h, zero_div]

theorem atan2_zero_one : atan2 0 1 = 0 := by
  simp only [atan2]
  rw [if_pos (show (0:ℝ) < 1 by norm_num)]
  norm_num

/-! ### Claim theorems -/

/-- C7: `poissonProbability 0 = 0`; `poissonProbability` is strictly
increasing on positive arguments; negative inputs are clamped to 0, so every
input `≤ 0` yields 0; and the output always lies in `[0, 1)`. -/
theorem poissonProbability_props :
    poissonProbability 0 = 0 ∧
    (∀ a b : ℝ, 0 < a → a < b → poissonProbability a < poissonProbability b) ∧
    (∀ x : ℝ, x ≤ 0 → poissonProbability x = 0) ∧
    (∀ x : ℝ, 0 ≤ poissonProbability x ∧ poissonProbability x < 1) := by
  refine ⟨(poissonProbability_eq_zero_iff 0).mpr le_rfl, ?_, ?_, ?_⟩
  · intro a b ha hab
    simp only [poissonProbability]
    rw [max_eq_right ha.le, max_eq_right (ha.trans hab).le]
    have h := Real.exp_lt_exp.mpr (show -b < -a by linarith)
    linarith
  · intro x hx
    exact (poissonProbability_eq_zero_iff x).mpr hx
  · intro x
    exact ⟨poissonProbability_nonneg x, poissonProbability_lt_one x⟩

/-- Witness for C7 at the concrete inputs 1, 2 and -3. -/
theorem poissonProbability_props_witness :
    (0:ℝ) < 1 ∧ (1:ℝ) < 2 ∧ ((-3):ℝ) ≤ 0 ∧
    poissonProbability 1 < poissonProbability 2 ∧ poissonProbability (-3) = 0 :=
  ⟨by norm_num, by norm_num, by norm_num,
   poissonProbability_props.2.1 1 2 (by norm_num) (by norm_num),
   poissonProbability_props.2.2.1 (-3) (by norm_num)⟩

/-- C8: with fewer than two readings `analyzeRiverTrend` returns the defined
terminal value `rising = false`, `riseRatePerHour = 0`,
`message = "Insufficient data"` — a total function result, not an error. -/
theorem analyzeRiverTrend_insufficient_data (site : GageSite) (readings : List GageReading)
    (h : readings.length < 2) :
    analyzeRiverTrend site readings =
      { site := site, readings := readings, rising := false, riseRatePerHour := 0,
        message := "Insufficient data" } := by
  simp only [analyzeRiverTrend, if_pos h]

/-- Witness for C8 at the empty readings list. -/
theorem analyzeRiverTrend_insufficient_data_witness :
    ([] : List GageReading).length < 2 ∧
    analyzeRiverTrend sampleGage [] =
      { site := sampleGage, readings := [], rising := false, riseRatePerHour := 0,
        message := "Insufficient data" } :=
  ⟨by norm_num, analyzeRiverTrend_insufficient_data sampleGage [] (by norm_num)⟩

/-- C6: `summarizeAdvice` assigns level low exactly when `overall < 0.2`,
moderate exactly when `0.2 ≤ overall < 0.5`, high exactly when
`0.5 ≤ overall` (partition with boundaries 0.2 and 0.5), and the level is a
function of the overall score alone. -/
theorem summarizeAdvice_level_partition :
    (∀ r : RiskBreakdown,
      ((summarizeAdvice r).level = RiskLevel.low ↔ r.overall < 0.2) ∧
      ((summarizeAdvice r).level = RiskLevel.moderate ↔ 0.2 ≤ r.overall ∧ r.overall < 0.5) ∧
      ((summarizeAdvice r).level = RiskLevel.high ↔ 0.5 ≤ r.overall)) ∧
    (∀ r1 r2 : RiskBreakdown, r1.overall = r2.overall →
      (summarizeAdvice r1).level = (summarizeAdvice r2).level) := by
  constructor
  · intro r
    simp only [summarizeAdvice]
    split_ifs with h1 h2
    · exact ⟨⟨fun _ => h1, fun _ => rfl⟩,
        ⟨fun h => absurd h (by decide), fun h => absurd h1 (not_lt.mpr h.1)⟩,
        ⟨fun h => absurd h (by decide), fun h => absurd h1 (not_lt.mpr (by linarith))⟩⟩
    · exact ⟨⟨fun h => absurd h (by decide), fun h => absurd h h1⟩,
        ⟨fun _ => ⟨not_lt.mp h1, h2⟩, fun _ => rfl⟩,
        ⟨fun h => absurd h (by decide), fun h => absurd h2 (not_lt.mpr h)⟩⟩
    · exact ⟨⟨fun h => absurd h (by decide), fun h => absurd h h1⟩,
        ⟨fun h => absurd h (by decide), fun h => absurd h.2 h2⟩,
        ⟨fun _ => not_lt.mp h2, fun _ => rfl⟩⟩
  · intro r1 r2 h
    simp only [summarizeAdvice, h]

/-- Witness for C6: two different breakdowns with the same overall score
get the same level. -/
theorem summarizeAdvice_level_partition_witness :
    sampleRiskA.overall = sampleRiskB.overall ∧
    (summarizeAdvice sampleRiskA).level = (summarizeAdvice sampleRiskB).level :=
  ⟨rfl, summarizeAdvice_level_partition.2 sampleRiskA sampleRiskB rfl⟩

/-- C10: `computeRisk` is a function of the earthquake count, the
per-category natural-event counts and `lookbackYears` alone; the center,
radius and the full record lists have no influence on the breakdown. -/
theorem computeRisk_depends_only_on_counts (s1 s2 : HazardsSummary)
    (he : s1.counts.earthquakes = s2.counts.earthquakes)
    (hc : s1.counts.eonetByCategory = s2.counts.eonetByCategory)
    (hy : s1.lookbackYears = s2.lookbackYears) :
    computeRisk s1 = computeRisk s2 := by
  simp only [computeRisk, he, hc, hy]

/-- Witness for C10: two summaries with equal counts and lookback but
different centers, radii and record lists get the same breakdown. -/
theorem computeRisk_depends_only_on_counts_witness :
    sampleSummaryA.counts.earthquakes = sampleSummaryB.counts.earthquakes ∧
    sampleSummaryA.counts.eonetByCategory = sampleSummaryB.counts.eonetByCategory ∧
    sampleSummaryA.lookbackYears = sampleSummaryB.lookbackYears ∧
    sampleSummaryA.center.lat ≠ sampleSummaryB.center.lat ∧
    computeRisk sampleSummaryA = computeRisk sampleSummaryB :=
  ⟨rfl, rfl, rfl, by norm_num [sampleSummaryA, sampleSummaryB],
   computeRisk_depends_only_on_counts sampleSummaryA sampleSummaryB rfl rfl rfl⟩

/-- C4: the natural-event adapter queries with a day window
`clamp(365 * lookbackYears, 30, 3650)` and keeps an event iff at least one
of its reported geometry positions lies within `radiusKm` of the center
(haversine distance); events with no position within radius are dropped. -/
theorem eonet_window_and_radius_filter :
    (∀ lookbackYears : ℝ, eonetDays lookbackYears = clamp (365 * lookbackYears) 30 3650) ∧
    (∀ (center : LatLng) (radiusKm : ℝ) (events : List EonetEvent) (ev : EonetEvent),
      ev ∈ eonetRadiusFilter center radiusKm events ↔
        ev ∈ events ∧ ∃ g ∈ ev.geometry, 2 ≤ g.coordinates.length ∧
          haversineDistanceKm center
            { lat := g.coordinates.getD 1 0, lng := g.coordinates.getD 0 0 } ≤ radiusKm) := by
  constructor
  · intro y
    simp only [eonetDays, clamp]
    rw [min_comm]
  · intro center radiusKm events ev
    simp only [eonetRadiusFilter, List.mem_filter, List.any_eq_true, eonetGeometryWithinRadius]
    refine and_congr_right fun _ => exists_congr fun g => and_congr_right fun _ => ?_
    by_cases hlen : g.coordinates.length < 2
    · rw [if_pos hlen]
      exact ⟨fun h => absurd h (by simp), fun h => absurd h.1 (not_le.mpr hlen)⟩
    · rw [if_neg hlen]
      simp only [decide_eq_true_eq]
      exact (and_iff_right (not_lt.mp hlen)).symm

/-- C2: both date-window helpers compute calendar results: the day helper's
output is exactly the current calendar day minus `days` for every current
time; the year helper subtracts from the calendar year (2024-03-01 minus one
year is 2023-03-01, and the leap day 2024-02-29 minus one year lands on
2023-03-01 by day-of-month rollover), which differs from subtracting a fixed
365-day multiple (that would give 2023-03-02). -/
theorem isoDate_helpers_calendar_arithmetic :
    (∀ nowMs days : Int, isoDateNDaysAgo nowMs days = calendarDaysAgoSpec nowMs days) ∧
    isoDateNYearsAgo marchFirst2024Noon 1 = (2023, 3, 1) ∧
    isoDateNYearsAgo feb29of2024Noon 1 = (2023, 3, 1) ∧
    yearsAgoVia365Days marchFirst2024Noon 1 = (2023, 3, 2) ∧
    isoDateNYearsAgo marchFirst2024Noon 1 ≠ yearsAgoVia365Days marchFirst2024Noon 1 := by
  refine ⟨?_, by decide, by decide, by decide, by decide⟩
  intro nowMs days
  simp only [isoDateNDaysAgo, calendarDaysAgoSpec, epochDayOfMs]
  congr 1
  have h : nowMs - days * 86400000 = nowMs + (-days) * 86400000 := by ring
  rw [h, Int.add_mul_ediv_right _ _ (by norm_num : (86400000:ℤ) ≠ 0)]
  ring

/-- C9: the haversine distance is zero on equal coordinates and symmetric
in its two arguments. -/
theorem haversineDistanceKm_zero_and_symm :
    (∀ a : LatLng, haversineDistanceKm a a = 0) ∧
    (∀ a b : LatLng, haversineDistanceKm a b = haversineDistanceKm b a) := by
  constructor
  · intro a
    simp only [haversineDistanceKm, toRadians, sub_self, zero_mul, zero_div, Real.sin_zero,
      mul_zero, zero_add, add_zero, Real.sqrt_zero, sub_zero, Real.sqrt_one, atan2_zero_one]
  · intro a b
    have keyN : ∀ x y : ℝ, Real.sin ((x - y) * Real.pi / 180 / 2)
        = -Real.sin ((y - x) * Real.pi / 180 / 2) := by
      intro x y
      rw [show (x - y) * Real.pi / 180 / 2 = -((y - x) * Real.pi / 180 / 2) from by ring,
        Real.sin_neg]
    simp only [haversineDistanceKm, toRadians]
    rw [keyN a.lat b.lat, keyN a.lng b.lng]
    ring_nf

/-- C5: with at least two readings, `analyzeRiverTrend` takes the last at
most twelve readings, divides the value change by the elapsed hours floored
at 0.1, and reports rising exactly when the rate exceeds 0.01; the two
readings `(t0, 10.0)` and `(t0 + 6h, 10.5)` give rate `1/12 ≈ 0.0833` per
hour and `rising = true`. -/
theorem analyzeRiverTrend_rate_spec (site : GageSite) (readings : List GageReading)
    (h : 2 ≤ readings.length) :
    ((analyzeRiverTrend site readings).riseRatePerHour =
        ((readings.drop (readings.length - 12)).getLastI.value -
            (readings.drop (readings.length - 12)).headI.value) /
          max (1/10)
            (((readings.drop (readings.length - 12)).getLastI.timestamp -
                (readings.drop (readings.length - 12)).headI.timestamp) / 3600000) ∧
      ((analyzeRiverTrend site readings).rising = true ↔
        1/100 < (analyzeRiverTrend site readings).riseRatePerHour)) ∧
    (analyzeRiverTrend site [⟨0, 10⟩, ⟨21600000, 21/2⟩]).riseRatePerHour = 1/12 ∧
    |(analyzeRiverTrend site [⟨0, 10⟩, ⟨21600000, 21/2⟩]).riseRatePerHour - 0.0833| < 0.0001 ∧
    (analyzeRiverTrend site [⟨0, 10⟩, ⟨21600000, 21/2⟩]).rising = true := by
  have hnot : ¬ readings.length < 2 := not_lt.mpr h
  refine ⟨⟨?_, ?_⟩, ?_, ?_, ?_⟩
  · simp only [analyzeRiverTrend, if_neg hnot]
  · simp only [analyzeRiverTrend, if_neg hnot, decide_eq_true_eq]
  · norm_num [analyzeRiverTrend, List.headI, List.getLastI]
  · norm_num [analyzeRiverTrend, List.headI, List.getLastI, abs_lt]
  · norm_num [analyzeRiverTrend, List.headI, List.getLastI, decide_eq_true_eq]

/-- Witness for C5 at a concrete two-element readings list. -/
theorem analyzeRiverTrend_rate_spec_witness :
    2 ≤ ([⟨0, 10⟩, ⟨21600000, 21/2⟩] : List GageReading).length ∧
    (analyzeRiverTrend sampleGage [⟨0, 10⟩, ⟨21600000, 21/2⟩]).riseRatePerHour = 1/12 :=
  ⟨by norm_num,
   (analyzeRiverTrend_rate_spec sampleGage [⟨0, 10⟩, ⟨21600000, 21/2⟩] (by norm_num)).2.1⟩

theorem overall_comb_bounds {p1 p2 p3 p4 p5 p6 p7 : ℝ}
    (h1 : 0 ≤ p1 ∧ p1 < 1) (h2 : 0 ≤ p2 ∧ p2 < 1) (h3 : 0 ≤ p3 ∧ p3 < 1)
    (h4 : 0 ≤ p4 ∧ p4 < 1) (h5 : 0 ≤ p5 ∧ p5 < 1) (h6 : 0 ≤ p6 ∧ p6 < 1)
    (h7 : 0 ≤ p7 ∧ p7 < 1) :
    (0 ≤ p1 * 0.30 + p2 * 0.15 + p3 * 0.20 + p4 * 0.05 + p5 * 0.20 + p6 * 0.05 + p7 * 0.05) ∧
    (p1 * 0.30 + p2 * 0.15 + p3 * 0.20 + p4 * 0.05 + p5 * 0.20 + p6 * 0.05 + p7 * 0.05 ≤ 1) ∧
    (p1 * 0.30 + p2 * 0.15 + p3 * 0.20 + p4 * 0.05 + p5 * 0.20 + p6 * 0.05 + p7 * 0.05 = 0 ↔
      p1 = 0 ∧ p2 = 0 ∧ p3 = 0 ∧ p4 = 0 ∧ p5 = 0 ∧ p6 = 0 ∧ p7 = 0) := by
  obtain ⟨l1, u1⟩ := h1
  obtain ⟨l2, u2⟩ := h2
  obtain ⟨l3, u3⟩ := h3
  obtain ⟨l4, u4⟩ := h4
  obtain ⟨l5, u5⟩ := h5
  obtain ⟨l6, u6⟩ := h6
  obtain ⟨l7, u7⟩ := h7
  have m1 : (0:ℝ) ≤ p1 * 0.30 := mul_nonneg l1 (by norm_num)
  have m2 : (0:ℝ) ≤ p2 * 0.15 := mul_nonneg l2 (by norm_num)
  have m3 : (0:ℝ) ≤ p3 * 0.20 := mul_nonneg l3 (by norm_num)
  have m4 : (0:ℝ) ≤ p4 * 0.05 := mul_nonneg l4 (by norm_num)
  have m5 : (0:ℝ) ≤ p5 * 0.20 := mul_nonneg l5 (by norm_num)
  have m6 : (0:ℝ) ≤ p6 * 0.05 := mul_nonneg l6 (by norm_num)
  have m7 : (0:ℝ) ≤ p7 * 0.05 := mul_nonneg l7 (by norm_num)
  refine ⟨by linarith, by nlinarith, ?_⟩
  constructor
  · intro h
    have e1 : p1 * 0.30 = 0 := by linarith
    have e2 : p2 * 0.15 = 0 := by linarith
    have e3 : p3 * 0.20 = 0 := by linarith
    have e4 : p4 * 0.05 = 0 := by linarith
    have e5 : p5 * 0.20 = 0 := by linarith
    have e6 : p6 * 0.05 = 0 := by linarith
    have e7 : p7 * 0.05 = 0 := by linarith
    exact ⟨(mul_eq_zero.mp e1).resolve_right (by norm_num),
      (mul_eq_zero.mp e2).resolve_right (by norm_num),
      (mul_eq_zero.mp e3).resolve_right (by norm_num),
      (mul_eq_zero.mp e4).resolve_right (by norm_num),
      (mul_eq_zero.mp e5).resolve_right (by norm_num),
      (mul_eq_zero.mp e6).resolve_right (by norm_num),
      (mul_eq_zero.mp e7).resolve_right (by norm_num)⟩
  · rintro ⟨e1, e2, e3, e4, e5, e6, e7⟩
    rw [e1, e2, e3, e4, e5, e6, e7]
    ring

/-- C1: for every hazard summary the overall risk score lies in `[0, 1]`,
and it is zero exactly when the earthquake count and every per-category
natural-event count feeding the risk model are zero. -/
theorem computeRisk_overall_bounds (s : HazardsSummary) :
    (0 ≤ (computeRisk s).overall ∧ (computeRisk s).overall ≤ 1) ∧
    ((computeRisk s).overall = 0 ↔
      s.counts.earthquakes = 0 ∧
      s.counts.eonetByCategory "Wildfires" = 0 ∧
      s.counts.eonetByCategory "Severe Storms" = 0 ∧
      s.counts.eonetByCategory "Tropical Cyclones" = 0 ∧
      s.counts.eonetByCategory "Volcanoes" = 0 ∧
      s.counts.eonetByCategory "Floods" = 0 ∧
      s.counts.eonetByCategory "Landslides" = 0 ∧
      s.counts.eonetByCategory "Drought" = 0) := by
  have hy : (0:ℝ) < max 1 s.lookbackYears := lt_of_lt_of_le one_pos (le_max_left 1 _)
  simp only [computeRisk]
  obtain ⟨hnn, hle, hiff⟩ := overall_comb_bounds
    ⟨poissonProbability_nonneg _, poissonProbability_lt_one _⟩
    ⟨poissonProbability_nonneg _, poissonProbability_lt_one _⟩
    ⟨poissonProbability_nonneg _, poissonProbability_lt_one _⟩
    ⟨poissonProbability_nonneg _, poissonProbability_lt_one _⟩
    ⟨poissonProbability_nonneg _, poissonProbability_lt_one _⟩
    ⟨poissonProbability_nonneg _, poissonProbability_lt_one _⟩
    ⟨poissonProbability_nonneg _, poissonProbability_lt_one _⟩
  refine ⟨⟨hnn, hle⟩, hiff.trans ?_⟩
  constructor
  · rintro ⟨e1, e2, e3, e4, e5, e6, e7⟩
    have c1 := Nat.cast_eq_zero.mp
      ((poissonProbability_rate_eq_zero_iff _ _ (Nat.cast_nonneg _) hy).mp e1)
    have c2 := Nat.cast_eq_zero.mp
      ((poissonProbability_rate_eq_zero_iff _ _ (Nat.cast_nonneg _) hy).mp e2)
    have c3 := (poissonProbability_rate_eq_zero_iff _ _
      (add_nonneg (Nat.cast_nonneg _) (Nat.cast_nonneg _)) hy).mp e3
    have c3' := (add_eq_zero_iff_of_nonneg (Nat.cast_nonneg _) (Nat.cast_nonneg _)).mp c3
    have c4 := Nat.cast_eq_zero.mp
      ((poissonProbability_rate_eq_zero_iff _ _ (Nat.cast_nonneg _) hy).mp e4)
    have c5 := Nat.cast_eq_zero.mp
      ((poissonProbability_rate_eq_zero_iff _ _ (Nat.cast_nonneg _) hy).mp e5)
    have c6 := Nat.cast_eq_zero.mp
      ((poissonProbability_rate_eq_zero_iff _ _ (Nat.cast_nonneg _) hy).mp e6)
    have c7 := Nat.cast_eq_zero.mp
      ((poissonProbability_rate_eq_zero_iff _ _ (Nat.cast_nonneg _) hy).mp e7)
    exact ⟨c1, c2, Nat.cast_eq_zero.mp c3'.1, Nat.cast_eq_zero.mp c3'.2, c4, c5, c6, c7⟩
  · rintro ⟨c1, c2, c3, c4, c5, c6, c7, c8⟩
    refine ⟨?_, ?_, ?_, ?_, ?_, ?_, ?_⟩
    · exact (poissonProbability_rate_eq_zero_iff _ _ (Nat.cast_nonneg _) hy).mpr
        (by rw [c1, Nat.cast_zero])
    · exact (poissonProbability_rate_eq_zero_iff _ _ (Nat.cast_nonneg _) hy).mpr
        (by rw [c2, Nat.cast_zero])
    · exact (poissonProbability_rate_eq_zero_iff _ _
        (add_nonneg (Nat.cast_nonneg _) (Nat.cast_nonneg _)) hy).mpr
        (by rw [c3, c4, Nat.cast_zero, add_zero])
    · exact (poissonProbability_rate_eq_zero_iff _ _ (Nat.cast_nonneg _) hy).mpr
        (by rw [c5, Nat.cast_zero])
    · exact (poissonProbability_rate_eq_zero_iff _ _ (Nat.cast_nonneg _) hy).mpr
        (by rw [c6, Nat.cast_zero])
    · exact (poissonProbability_rate_eq_zero_iff _ _ (Nat.cast_nonneg _) hy).mpr
        (by rw [c7, Nat.cast_zero])
    · exact (poissonProbability_rate_eq_zero_iff _ _ (Nat.cast_nonneg _) hy).mpr
        (by rw [c8, Nat.cast_zero])

set_option maxHeartbeats 1600000 in
/-- C3: `computeStabilityScore` returns 0 on the empty series; its result
always lies in `[0, 100]`; a perfectly flat 20-year series scores exactly
100; and 20 years of temperature rising by 0.06 degC/year with flat
precipitation give temperature slope 0.06, temperature penalty
`piece 0.06 0.02 0.05 = 1`, score `round(100 * (1 - 0.6)) = 40`, whose
interpretation band is "Noticeable warming/drying trend". -/
theorem computeStabilityScore_spec :
    computeStabilityScore [] = 0 ∧
    (∀ data : List YearlyClimate,
      0 ≤ computeStabilityScore data ∧ computeStabilityScore data ≤ 100) ∧
    computeStabilityScore flatClimateSeries = 100 ∧
    olsSlope ((List.range 20).map (fun i => (i : ℚ)))
      (risingClimateSeries.map (fun y => y.average_temperature_c)) = 0.06 ∧
    piece 0.06 0.02 0.05 = 1 ∧
    computeStabilityScore risingClimateSeries = 40 ∧
    interpretation (some (computeStabilityScore risingClimateSeries)) =
      "Noticeable warming/drying trend" := by
  have h100 : computeStabilityScore flatClimateSeries = 100 := by
    norm_num [flatClimateSeries, computeStabilityScore, olsSlope, piece, round_eq,
      List.range_succ, List.filterMap_cons, List.filterMap_nil, Option.map_some,
      Option.map_none, List.sum_cons, List.sum_nil, List.map_cons, List.map_nil,
      List.length_cons, abs_of_nonneg]
  have hslope : olsSlope ((List.range 20).map (fun i => (i : ℚ)))
      (risingClimateSeries.map (fun y => y.average_temperature_c)) = 0.06 := by
    norm_num [risingClimateSeries, olsSlope, List.range_succ, List.filterMap_cons,
      List.filterMap_nil, Option.map_some, Option.map_none, List.sum_cons, List.sum_nil,
      List.map_cons, List.map_nil, List.length_cons]
  have h40 : computeStabilityScore risingClimateSeries = 40 := by
    norm_num [risingClimateSeries, computeStabilityScore, olsSlope, piece, round_eq,
      List.range_succ, List.filterMap_cons, List.filterMap_nil, Option.map_some,
      Option.map_none, List.sum_cons, List.sum_nil, List.map_cons, List.map_nil,
      List.length_cons, abs_of_nonneg]
  have hpiece : piece 0.06 0.02 0.05 = 1 := by
    norm_num [piece, abs_of_nonneg]
  refine ⟨rfl, ?_, h100, hslope, hpiece, h40, ?_⟩
  · intro data
    constructor
    · simp only [computeStabilityScore]
      split
      · norm_num
      · exact le_max_left 0 _
    · simp only [computeStabilityScore]
      split
      · norm_num
      · exact max_le (by norm_num) (min_le_left _ _)
  · rw [h40]
    rfl
